import Mathlib

/-!
Verification of the data-refresh and derivation pipeline of a fantasy-football
dashboard.  The TypeScript sources are shallowly embedded here: numbers are
modelled by `ℚ` (the upstream API delivers decimal scores), nullable values by
`Option`, and JavaScript truthiness (`x || y`, `x ?? y`) by explicit helpers.
Presentational string fields that no property mentions (avatar URLs, handles,
seed labels) are omitted from the embedded records.
-/

set_option maxHeartbeats 1000000

/- Batteries marks the `Rat` field operations `@[irreducible]`, which blocks
`decide` from evaluating concrete rational arithmetic; re-exposing them is safe
here (the kernel ignores reducibility annotations anyway). -/
set_option allowUnsafeReducibility true
attribute [local semireducible] Rat.add Rat.mul Rat.inv Rat.sub

/-- JS `Math.abs` on a rational. -/
def mathAbs (q : ℚ) : ℚ :=
  if q < 0 then -q else q

/-- JS `Math.min` on rationals. -/
def mathMin (a b : ℚ) : ℚ :=
  if a ≤ b then a else b

/-- JS `Math.max` on rationals. -/
def mathMax (a b : ℚ) : ℚ :=
  if a ≤ b then b else a

/-- JS `a ?? b` for a nullable number: `??` only tests null/undefined. -/
def jsNullish (a : Option ℚ) (b : ℚ) : ℚ :=
  match a with
  | some x => x
  | none => b

/-- JS `a || b` for a nullable number: `0` is falsy, so `some 0` falls through. -/
def jsOrNum (a : Option ℚ) (b : ℚ) : ℚ :=
  match a with
  | some x => if x = 0 then b else x
  | none => b

/-- JS truthiness for a nullable number used in a `||` chain: `null` and `0` are falsy. -/
def numTruthy (a : Option ℚ) : Option ℚ :=
  match a with
  | some x => if x = 0 then none else some x
  | none => none

/-- JS truthiness for a nullable string: `null` and `""` are falsy. -/
def strTruthy (a : Option String) : Option String :=
  match a with
  | some s => if s = "" then none else some s
  | none => none

/-- JS `a || b` on nullable strings. -/
def jsOrStr (a : Option String) (b : String) : String :=
  match strTruthy a with
  | some s => s
  | none => b

/-- One row of `/league/{id}/matchups/{week}` (interface `SleeperMatchup`):
roster id, matchup-group id, nullable points, nullable starters list. -/
structure MatchupEntry where
  roster_id : Int
  matchup_id : Int
  points : Option ℚ
  starters : Option (List String)
deriving DecidableEq

/-- The `settings` object of a `SleeperRoster`.  The fields the code guards with
`!= null` or `||` are modelled as `Option`. -/
structure RosterSettings where
  wins : Option Int
  losses : Option Int
  ties : Option Int
  fpts : Option ℚ
  fpts_decimal : Option ℚ
  fpts_against : Option ℚ
  fpts_against_decimal : Option ℚ
  rank : Option Int
deriving DecidableEq

/-- A `SleeperRoster` (fields the pipeline reads). -/
structure SleeperRoster where
  roster_id : Int
  owner_id : Option String
  settings : RosterSettings
deriving DecidableEq

/-- A `SleeperUser` (fields the pipeline reads; `team_name` is `metadata.team_name`). -/
structure SleeperUser where
  user_id : String
  username : Option String
  display_name : Option String
  team_name : Option String
deriving DecidableEq

/-- `m.points && m.points > 0` — the "has a positive point value" test. -/
def matchupHasPoints (m : MatchupEntry) : Bool :=
  match m.points with
  | some p => decide (0 < p)
  | none => false

/-- `m.starters && m.starters.length > 0` — the "has a non-empty starters list" test. -/
def matchupHasStarters (m : MatchupEntry) : Bool :=
  match m.starters with
  | some l => decide (0 < l.length)
  | none => false

section WeekInference

/-- The league record consumed by the week-inference fallback:
`league.metadata?.league_type`. -/
structure LeagueInfo where
  league_type : Option String

/-- The fetch environment `getLatestWeekWithData` runs against: per-week matchup
fetches (`none` = the fetch threw) and the league fetch (`none` = it threw). -/
structure WeekEnv where
  matchups : Nat → Option (List MatchupEntry)
  league : Option LeagueInfo

/-- One iteration of the week loop in `getLatestWeekWithData`
(src/lib/sleeper.ts:457-488): a week is used iff its fetch succeeded, returned a
non-empty array, and some entry has positive points or a non-empty starters
list.  A failed fetch `continue`s, i.e. counts as not qualifying. -/
def weekQualifies (env : WeekEnv) (week : Nat) : Bool :=
  match env.matchups week with
  | none => false
  | some ms =>
    if ms.length = 0 then false
    else if 0 < (ms.filter matchupHasPoints).length then true
    else decide (0 < (ms.filter matchupHasStarters).length)

/-- The ascending `for` loop of `getLatestWeekWithData`: first qualifying week. -/
def scanWeeks (env : WeekEnv) : List Nat → Option Nat
  | [] => none
  | w :: ws => if weekQualifies env w then some w else scanWeeks env ws

/-- `league.metadata?.league_type || "standard"`. -/
def leagueTypeOf (lg : LeagueInfo) : String :=
  jsOrStr lg.league_type "standard"

/-- The date-derived provisional week (src/lib/sleeper.ts:449-452):
`Math.max(1, Math.min(18, Math.floor(daysSinceStart / 7) + 1))`. -/
def calculatedCurrentWeek (daysSinceStart : Int) : Int :=
  max 1 (min 18 (Int.fdiv daysSinceStart 7 + 1))

/-- `getLatestWeekWithData` (src/lib/sleeper.ts:445-510), parameterized by the
fetch environment and the already-computed provisional week: scan weeks
`1..provisional` ascending and return the first with data; otherwise return `1`
for survivor / pick'em league types, the provisional week for other leagues,
and `1` when the league fetch itself fails. -/
def getLatestWeekWithData (env : WeekEnv) (provisional : Nat) : Nat :=
  match scanWeeks env (List.range' 1 provisional) with
  | some w => w
  | none =>
    match env.league with
    | some lg =>
      if leagueTypeOf lg = "survivor" ∨ leagueTypeOf lg = "pick_em" then 1
      else provisional
    | none => 1

end WeekInference

section MatchupDeriver

/-- One side of a processed matchup (interface `MatchupTeam` in src/app/page.tsx).
`handle`, `avatar` and `seed` are presentational and omitted. -/
structure MatchupTeam where
  rosterId : Int
  teamName : String
  ownerName : String
  points : Option ℚ
  projection : ℚ
  winProbability : Option ℚ
  isPreGame : Bool
deriving DecidableEq

/-- A processed matchup pair (interface `ProcessedMatchup`). -/
structure ProcessedMatchup where
  matchupId : Int
  teams : MatchupTeam × MatchupTeam
deriving DecidableEq

/-- `rosters.find(r => r.roster_id === id)` then
`users.find(u => u.user_id === roster?.owner_id)`. -/
def findRoster (rosters : List SleeperRoster) (id : Int) : Option SleeperRoster :=
  rosters.find? (fun r => r.roster_id = id)

/-- Owner lookup: `===` against `undefined`/`null` never matches, so a missing
roster or a null `owner_id` yields no user. -/
def findOwner (users : List SleeperUser) (roster : Option SleeperRoster) : Option SleeperUser :=
  match roster.bind (fun r => r.owner_id) with
  | some oid => users.find? (fun u => u.user_id = oid)
  | none => none

/-- `calculateProjection` (src/app/page.tsx:859-871): 0 for weeks ≤ 2 (no two
historical weeks exist), otherwise `roster?.settings?.fpts || fpts_decimal || 0`
when positive. -/
def calculateProjection (roster : Option SleeperRoster) (currentWeek : Int) : ℚ :=
  if currentWeek ≤ 1 then 0
  else if max 0 (currentWeek - 1) < 2 then 0
  else
    let seasonAvg :=
      match numTruthy (roster.bind (fun r => r.settings.fpts)) with
      | some v => v
      | none =>
        match numTruthy (roster.bind (fun r => r.settings.fpts_decimal)) with
        | some v => v
        | none => 0
    if 0 < seasonAvg then seasonAvg else 0

/-- The per-side construction inside `processMatchupsForDisplay`
(src/app/page.tsx:776-796): `rawPoints = Number(team.points ?? 0)`,
`points = rawPoints === 0 ? null : rawPoints`; starters are not consulted. -/
def mkTeamForDisplay (users : List SleeperUser) (rosters : List SleeperRoster)
    (week : Int) (team : MatchupEntry) : MatchupTeam :=
  let roster := findRoster rosters team.roster_id
  let user := findOwner users roster
  let rawPoints := jsNullish team.points 0
  let points : Option ℚ := if rawPoints = 0 then none else some rawPoints
  { rosterId := team.roster_id
    teamName := jsOrStr (user.bind (fun u => u.team_name)) ("Team " ++ toString team.roster_id)
    ownerName := jsOrStr (user.bind (fun u => u.display_name)) "Unknown"
    points := points
    projection := calculateProjection roster week
    winProbability := none
    isPreGame := points = none }

/-- The piecewise-linear advantage curve shared by both variants
(src/app/page.tsx:820-829 and 1681-1690). -/
def probabilityShift (advantage : ℚ) : ℚ :=
  if advantage < 5 then advantage * (8 / 100)
  else if advantage < 15 then 4 / 10 + (advantage - 5) * (3 / 100)
  else 7 / 10 + mathMin ((advantage - 15) * (1 / 100)) (2 / 10)

/-- The unclamped win probability of the first side, variant at
src/app/page.tsx:798-840 (the second `else if` reproduces the source's dead
branch verbatim). -/
def rawWinProbA (t1 t2 : MatchupTeam) : Option ℚ :=
  let team1Points := t1.points
  let team2Points := t2.points
  let team1Proj := t1.projection
  let team2Proj := t2.projection
  let totalPoints := jsOrNum team1Points 0 + jsOrNum team2Points 0
  if team1Points = none ∧ team2Points = none then none
  else if team1Points = none ∧ team2Points = none ∧ 0 < team1Proj ∧ 0 < team2Proj then none
  else if 0 < totalPoints ∧ totalPoints < 10 then some (1 / 2)
  else if jsOrNum team1Points 0 ≤ 0 ∧ jsOrNum team2Points 0 ≤ 0 then none
  else
    match team1Points, team2Points with
    | some p1, some p2 =>
      let pointDiff := p1 - p2
      if mathAbs pointDiff < 1 / 10 then some (1 / 2)
      else
        let shift := probabilityShift (mathAbs pointDiff)
        some (if 0 < pointDiff then 1 / 2 + shift else 1 / 2 - shift)
    | _, _ =>
      if 0 < team1Proj ∧ 0 < team2Proj then
        some (1 / 2 + ((team1Proj - team2Proj) / 80) * (2 / 10))
      else none

/-- `Math.max(lo, Math.min(hi, p))`. -/
def clampProb (lo hi p : ℚ) : ℚ :=
  mathMax lo (mathMin hi p)

/-- Pairing step of `processMatchupsForDisplay` (src/app/page.tsx:774-853):
build both sides, compute the first side's probability, clamp it to
`[0.1, 0.9]`, and give the second side the exact complement. -/
def processPair (users : List SleeperUser) (rosters : List SleeperRoster)
    (week : Int) (matchupId : Int) (e1 e2 : MatchupEntry) : ProcessedMatchup :=
  let t1 := mkTeamForDisplay users rosters week e1
  let t2 := mkTeamForDisplay users rosters week e2
  let winProbA := (rawWinProbA t1 t2).map (clampProb (1 / 10) (9 / 10))
  { matchupId := matchupId
    teams := ({ t1 with winProbability := winProbA },
              { t2 with winProbability := winProbA.map (fun p => 1 - p) }) }

/-- Grouping by `matchup_id` with a JS `Map` (insertion order preserved,
entries pushed to the back of their group). -/
def groupByMatchupId (matchups : List MatchupEntry) : List (Int × List MatchupEntry) :=
  matchups.foldl
    (fun acc m =>
      if acc.any (fun p => p.1 = m.matchup_id) then
        acc.map (fun p => if p.1 = m.matchup_id then (p.1, p.2 ++ [m]) else p)
      else acc ++ [(m.matchup_id, [m])])
    []

/-- `processMatchupsForDisplay` (src/app/page.tsx:756-857): group by matchup id,
keep only groups of exactly two entries, pair them up. -/
def processMatchupsForDisplay (matchups : List MatchupEntry) (users : List SleeperUser)
    (rosters : List SleeperRoster) (week : Int) : List ProcessedMatchup :=
  (groupByMatchupId matchups).filterMap
    (fun g =>
      match g.2 with
      | [e1, e2] => some (processPair users rosters week g.1 e1 e2)
      | _ => none)

/-- Per-side construction of the second `processMatchupsForDisplay` variant
(src/app/page.tsx:1633-1653): points are nulled only in week 1. -/
def mkTeamForDisplayV2 (users : List SleeperUser) (rosters : List SleeperRoster)
    (week : Int) (team : MatchupEntry) : MatchupTeam :=
  let roster := findRoster rosters team.roster_id
  let user := findOwner users roster
  let rawPoints := jsNullish team.points 0
  let points : Option ℚ := if week = 1 ∧ rawPoints = 0 then none else some rawPoints
  { rosterId := team.roster_id
    teamName := jsOrStr (user.bind (fun u => u.team_name)) ("Team " ++ toString team.roster_id)
    ownerName := jsOrStr (user.bind (fun u => u.display_name)) "Unknown"
    points := points
    projection := calculateProjection roster week
    winProbability := none
    isPreGame := points = none }

/-- The unclamped win probability of the second variant
(src/app/page.tsx:1655-1706): low-signal threshold 3, no forced-0.5 band. -/
def rawWinProbAV2 (t1 t2 : MatchupTeam) : Option ℚ :=
  let team1Points := t1.points
  let team2Points := t2.points
  let totalPoints := jsOrNum team1Points 0 + jsOrNum team2Points 0
  if team1Points = none ∧ team2Points = none then none
  else if jsOrNum team1Points 0 ≤ 0 ∧ jsOrNum team2Points 0 ≤ 0 then none
  else if totalPoints < 3 then none
  else
    match team1Points, team2Points with
    | some p1, some p2 =>
      let pointDiff := p1 - p2
      if mathAbs pointDiff < 1 / 10 then some (1 / 2)
      else
        let shift := probabilityShift (mathAbs pointDiff)
        some (if 0 < pointDiff then 1 / 2 + shift else 1 / 2 - shift)
    | _, _ =>
      if 0 < t1.projection ∧ 0 < t2.projection then
        some (1 / 2 + ((t1.projection - t2.projection) / 80) * (2 / 10))
      else none

/-- Pairing step of the second variant (clamp `[0.15, 0.85]`,
src/app/page.tsx:1708-1714). -/
def processPairV2 (users : List SleeperUser) (rosters : List SleeperRoster)
    (week : Int) (matchupId : Int) (e1 e2 : MatchupEntry) : ProcessedMatchup :=
  let t1 := mkTeamForDisplayV2 users rosters week e1
  let t2 := mkTeamForDisplayV2 users rosters week e2
  let winProbA := (rawWinProbAV2 t1 t2).map (clampProb (15 / 100) (85 / 100))
  { matchupId := matchupId
    teams := ({ t1 with winProbability := winProbA },
              { t2 with winProbability := winProbA.map (fun p => 1 - p) }) }

/-- Second `processMatchupsForDisplay` variant (src/app/page.tsx:1613-1724). -/
def processMatchupsForDisplayV2 (matchups : List MatchupEntry) (users : List SleeperUser)
    (rosters : List SleeperRoster) (week : Int) : List ProcessedMatchup :=
  (groupByMatchupId matchups).filterMap
    (fun g =>
      match g.2 with
      | [e1, e2] => some (processPairV2 users rosters week g.1 e1 e2)
      | _ => none)

end MatchupDeriver

section GuillotineDeriver

/-- Per-entry construction inside `processGuillotineStandings`
(src/app/page.tsx:692-725): points stay when positive or when starters are set,
otherwise the side is pre-game; `winProbability` is the constant `0.5`. -/
def mkGuillotineTeam (users : List SleeperUser) (rosters : List SleeperRoster)
    (week : Int) (matchup : MatchupEntry) : MatchupTeam :=
  let roster := findRoster rosters matchup.roster_id
  let user := findOwner users roster
  let hasStarters := matchupHasStarters matchup
  let points : Option ℚ :=
    match matchup.points with
    | some p => if 0 < p ∨ hasStarters then some p else none
    | none => none
  { rosterId := matchup.roster_id
    teamName := jsOrStr (user.bind (fun u => u.team_name))
      (jsOrStr (user.bind (fun u => u.display_name)) ("Team " ++ toString matchup.roster_id))
    ownerName := jsOrStr (user.bind (fun u => u.display_name)) "Unknown"
    points := points
    projection := calculateProjection roster week
    winProbability := some (1 / 2)
    isPreGame := points = none }

/-- Score key of the guillotine sort (src/app/page.tsx:727-729):
actual points, else the projection when positive, else `-1`. -/
def guillotineScore (t : MatchupTeam) : ℚ :=
  match t.points with
  | some p => p
  | none => if 0 < t.projection then t.projection else -1

/-- The JS comparator of the guillotine sort (src/app/page.tsx:726-735). -/
def guillotineCmp (a b : MatchupTeam) : ℚ :=
  if guillotineScore a = guillotineScore b then ((a.rosterId - b.rosterId : Int) : ℚ)
  else guillotineScore b - guillotineScore a

/-- `Array.prototype.sort` keeps `a` before `b` when the comparator is ≤ 0. -/
def guillotineLE (a b : MatchupTeam) : Bool :=
  decide (guillotineCmp a b ≤ 0)

/-- The rank placeholder paired with each real team
(src/app/page.tsx:741-751): roster id `999 + index`, zero points, zero
projection, zero win probability.  The source object carries no `isPreGame`
field, so it is the JS-falsy `false` here. -/
def rankPlaceholder (index : Nat) : MatchupTeam :=
  { rosterId := 999 + (index : Int)
    teamName := "Rank #" ++ toString (index + 1)
    ownerName := "Position " ++ toString (index + 1)
    points := some 0
    projection := 0
    winProbability := some 0
    isPreGame := false }

/-- `processGuillotineStandings` (src/app/page.tsx:685-754): map, sort by score
descending with roster-id tie-break, pair each team with a rank placeholder. -/
def processGuillotineStandings (matchups : List MatchupEntry) (users : List SleeperUser)
    (rosters : List SleeperRoster) (week : Int) : List ProcessedMatchup :=
  let teamStandings :=
    ((matchups.map (mkGuillotineTeam users rosters week)).mergeSort guillotineLE)
  teamStandings.enum.map
    (fun p =>
      { matchupId := p.2.rosterId
        teams := (p.2, rankPlaceholder p.1) })

/-- Per-entry construction of the second `processGuillotineStandings` variant
(src/app/page.tsx:1568-1587): `points = matchup.points || 0` (never null), the
record carries no `isPreGame` field (JS-falsy `false` here). -/
def mkGuillotineTeamV2 (users : List SleeperUser) (rosters : List SleeperRoster)
    (week : Int) (matchup : MatchupEntry) : MatchupTeam :=
  let roster := findRoster rosters matchup.roster_id
  let user := findOwner users roster
  { rosterId := matchup.roster_id
    teamName := jsOrStr (user.bind (fun u => u.team_name)) ("Team " ++ toString matchup.roster_id)
    ownerName := jsOrStr (user.bind (fun u => u.display_name)) "Unknown"
    points := some (jsOrNum matchup.points 0)
    projection := calculateProjection roster week
    winProbability := some (1 / 2)
    isPreGame := false }

/-- Comparator of the second guillotine variant (src/app/page.tsx:1588-1592):
`score = points > 0 ? points : projection`, no tie-break. -/
def guillotineLEV2 (a b : MatchupTeam) : Bool :=
  let scoreA := if 0 < jsNullish a.points 0 then jsNullish a.points 0 else a.projection
  let scoreB := if 0 < jsNullish b.points 0 then jsNullish b.points 0 else b.projection
  decide (scoreB - scoreA ≤ 0)

/-- Second `processGuillotineStandings` variant (src/app/page.tsx:1562-1611). -/
def processGuillotineStandingsV2 (matchups : List MatchupEntry) (users : List SleeperUser)
    (rosters : List SleeperRoster) (week : Int) : List ProcessedMatchup :=
  let teamStandings :=
    ((matchups.map (mkGuillotineTeamV2 users rosters week)).mergeSort guillotineLEV2)
  teamStandings.enum.map
    (fun p =>
      { matchupId := p.2.rosterId
        teams := (p.2, rankPlaceholder p.1) })

/-- A row of the guillotine table before ranking
(src/app/page.tsx:513-537): points kept as-is (null stays null). -/
structure GuillotineRow where
  rosterId : Int
  ownerName : String
  points : Option ℚ
  projectedPoints : ℚ
  isPreGame : Bool
deriving DecidableEq

/-- A ranked table row (src/app/page.tsx:555-579). -/
structure RankedGuillotineRow where
  rosterId : Int
  ownerName : String
  points : Option ℚ
  projectedPoints : ℚ
  isPreGame : Bool
  rank : Nat
  safetyPercentage : ℚ
  zone : String
deriving DecidableEq

/-- Per-entry row of `GuillotineTable` (src/app/page.tsx:513-537). -/
def mkGuillotineRow (users : List SleeperUser) (rosters : List SleeperRoster)
    (matchup : MatchupEntry) : GuillotineRow :=
  let roster := findRoster rosters matchup.roster_id
  let user := findOwner users roster
  { rosterId := matchup.roster_id
    ownerName := jsOrStr (user.bind (fun u => u.display_name)) "Unknown"
    points := matchup.points
    projectedPoints :=
      match numTruthy (roster.bind (fun r => r.settings.fpts)) with
      | some v => v
      | none =>
        match numTruthy (roster.bind (fun r => r.settings.fpts_decimal)) with
        | some v => v
        | none => 0
    isPreGame := matchup.points = none }

/-- The table comparator (src/app/page.tsx:538-544): nulls last (tie-break on
roster id among nulls), real scores descending. -/
def guillotineTableCmp (a b : GuillotineRow) : ℚ :=
  match a.points, b.points with
  | none, none => ((a.rosterId - b.rosterId : Int) : ℚ)
  | none, some _ => 1
  | some _, none => -1
  | some pa, some pb => pb - pa

/-- Boolean order for the table sort. -/
def guillotineTableLE (a b : GuillotineRow) : Bool :=
  decide (guillotineTableCmp a b ≤ 0)

/-- The fixed rank bands of `GuillotineTable` (src/app/page.tsx:561-571). -/
def zoneOfRank (rank : Nat) : String :=
  if rank ≤ 3 then "super-safety"
  else if rank ≤ 6 then "safety"
  else if rank ≤ 9 then "danger"
  else "chopped"

/-- The ranked rows computed by `GuillotineTable` (src/app/page.tsx:513-579):
sort, rank `index + 1`, zone by fixed cutoffs with a pre-game override, safety
percentage scaled to the maximum real score and clamped to `[5, 95]`. -/
def guillotineTableRows (matchups : List MatchupEntry) (users : List SleeperUser)
    (rosters : List SleeperRoster) : List RankedGuillotineRow :=
  let teamScores :=
    ((matchups.map (mkGuillotineRow users rosters)).mergeSort guillotineTableLE)
  let teamsWithScores := teamScores.filter (fun t => t.points ≠ none)
  let maxPoints : ℚ :=
    if 0 < teamsWithScores.length then
      ((teamsWithScores.map (fun t => jsNullish t.points 0)).max?.getD 0)
    else 0
  teamScores.enum.map
    (fun p =>
      let team := p.2
      let rank := p.1 + 1
      let isPreGame := team.points = none
      { rosterId := team.rosterId
        ownerName := team.ownerName
        points := team.points
        projectedPoints := team.projectedPoints
        isPreGame := isPreGame
        rank := rank
        safetyPercentage :=
          if isPreGame then 50
          else if 0 < maxPoints then mathMin 95 (mathMax 5 (jsNullish team.points 0 / maxPoints * 100))
          else 50
        zone := if isPreGame then "safety" else zoneOfRank rank })

end GuillotineDeriver

section StandingsDeriver

/-- A standings row (src/lib/sleeper.ts:231-240). -/
structure StandingsRow where
  rosterId : Int
  teamName : String
  ownerName : String
  wins : Int
  losses : Int
  ties : Int
  pointsFor : ℚ
  pointsAgainst : ℚ
deriving DecidableEq

/-- `x || 0` on a nullable integer. -/
def jsOrIntZero (a : Option Int) : Int :=
  match a with
  | some x => x
  | none => 0

/-- The per-roster row of `getStandingsData` (src/lib/sleeper.ts:217-241):
points-for/against are `fpts + fpts_decimal / 100` only when BOTH halves are
non-null, otherwise the whole value is `0`. -/
def mkStandingsRow (users : List SleeperUser) (roster : SleeperRoster) : StandingsRow :=
  let user : Option SleeperUser :=
    match roster.owner_id with
    | some oid => users.find? (fun u => u.user_id = oid)
    | none => none
  let pointsFor :=
    match roster.settings.fpts, roster.settings.fpts_decimal with
    | some a, some b => a + b / 100
    | _, _ => 0
  let pointsAgainst :=
    match roster.settings.fpts_against, roster.settings.fpts_against_decimal with
    | some a, some b => a + b / 100
    | _, _ => 0
  { rosterId := roster.roster_id
    teamName := jsOrStr (user.bind (fun u => u.team_name))
      (jsOrStr (user.bind (fun u => u.display_name)) "Unknown Team")
    ownerName := jsOrStr (user.bind (fun u => u.display_name)) "Unknown Owner"
    wins := jsOrIntZero roster.settings.wins
    losses := jsOrIntZero roster.settings.losses
    ties := jsOrIntZero roster.settings.ties
    pointsFor := pointsFor
    pointsAgainst := pointsAgainst }

/-- The standings comparator (src/lib/sleeper.ts:242-246):
`b.wins - a.wins` when wins differ, else `b.pointsFor - a.pointsFor`. -/
def standingsCmp (a b : StandingsRow) : ℚ :=
  if b.wins ≠ a.wins then ((b.wins - a.wins : Int) : ℚ)
  else b.pointsFor - a.pointsFor

/-- Boolean order for the standings sort. -/
def standingsLE (a b : StandingsRow) : Bool :=
  decide (standingsCmp a b ≤ 0)

/-- `getStandingsData` (src/lib/sleeper.ts:213-247): map rosters to rows, then
the stable two-key sort. -/
def getStandingsData (users : List SleeperUser) (rosters : List SleeperRoster) :
    List StandingsRow :=
  (rosters.map (mkStandingsRow users)).mergeSort standingsLE

end StandingsDeriver

section RequestCoordinator

/-- The body of an upstream HTTP response, as `fetchSleeperAPI` classifies it:
an HTML-looking body (`text.startsWith("<")` or contains "Too Many Requests"),
a body `JSON.parse` rejects, or good JSON (kept as its raw text). -/
inductive BodyKind where
  | htmlLike
  | badJson
  | jsonData (data : String)
deriving DecidableEq

/-- An upstream HTTP response: status plus body. -/
structure HttpResponse where
  status : Nat
  body : BodyKind
deriving DecidableEq

/-- `response.ok`: status in `[200, 300)`. -/
def responseOk (r : HttpResponse) : Bool :=
  decide (200 ≤ r.status ∧ r.status < 300)

/-- The errors `fetchSleeperAPI` can throw (src/lib/sleeper.ts:141,145,158,165-174):
the two rate-limited messages, the rethrown JSON `SyntaxError`, and the
immediate upstream-status error. -/
inductive FetchError where
  | rateLimited429
  | rateLimitedHtml
  | jsonSyntax
  | upstream (status : Nat)
deriving DecidableEq

/-- Outcome of a `fetchSleeperAPI` call. -/
inductive FetchOutcome where
  | ok (data : String)
  | error (e : FetchError)
deriving DecidableEq

/-- `maxRetries` (src/lib/sleeper.ts:120). -/
def maxRetries : Nat := 3

/-- `baseDelay` in milliseconds (src/lib/sleeper.ts:121). -/
def baseDelay : Nat := 1000

/-- The retry logic of the inner request closure of `fetchSleeperAPI`
(src/lib/sleeper.ts:124-176) IN ISOLATION, i.e. the behavior the code's
comments and error messages document ("Exponential backoff", "Rate limited
after 3 retries"): the network is an oracle from endpoint and attempt number
to the response, and the backoff delays (`baseDelay * Math.pow(2, retryCount)`)
are accumulated alongside the outcome.  429 and HTML-instead-of-JSON retry up
to `maxRetries` and then fail with a rate-limited error; a JSON parse error
retries the same way and then rethrows the `SyntaxError`; any other non-ok
status fails immediately.  NOTE: this is the intent baseline only — the real
function is wired through the endpoint-keyed `requestQueue.add` dedup cache
(sleeper.ts:62-87, 122-124), which intercepts every recursive retry; the
as-wired behavior is `fetchSleeperAPIWithCache` below. -/
def fetchSleeperAPI (endpoint : String) (oracle : String → Nat → HttpResponse)
    (retryCount : Nat) : FetchOutcome × List Nat :=
  let response := oracle endpoint retryCount
  if responseOk response then
    match response.body with
    | .htmlLike =>
      if h : retryCount < maxRetries then
        let rec' := fetchSleeperAPI endpoint oracle (retryCount + 1)
        (rec'.1, baseDelay * 2 ^ retryCount :: rec'.2)
      else (.error .rateLimitedHtml, [])
    | .badJson =>
      if h : retryCount < maxRetries then
        let rec' := fetchSleeperAPI endpoint oracle (retryCount + 1)
        (rec'.1, baseDelay * 2 ^ retryCount :: rec'.2)
      else (.error .jsonSyntax, [])
    | .jsonData d => (.ok d, [])
  else
    if response.status = 429 then
      if h : retryCount < maxRetries then
        let rec' := fetchSleeperAPI endpoint oracle (retryCount + 1)
        (rec'.1, baseDelay * 2 ^ retryCount :: rec'.2)
      else (.error .rateLimited429, [])
    else (.error (.upstream response.status), [])
termination_by maxRetries + 1 - retryCount
decreasing_by all_goals omega

/-- Whether awaiting the promise a call returns ever completes, and if so with
what outcome.  `neverSettles` models a promise whose resolution transitively
awaits itself. -/
inductive CachedOutcome where
  | settled (outcome : FetchOutcome)
  | neverSettles
deriving DecidableEq

/-- `fetchSleeperAPI` as actually wired through `requestQueue.add`
(src/lib/sleeper.ts:62-87, 118-177).  `add` is keyed by `cacheKey = endpoint`
(a non-empty path string, hence truthy): on a cache hit it returns the stored
promise (sleeper.ts:63-66), and it stores the new pending promise BEFORE the
request function runs (sleeper.ts:80-84), evicting it only after 5 minutes —
far beyond the 1–4 s backoff delays.  `pending` is the set of endpoints whose
promise is stored and not yet settled.  A recursive retry call therefore hits
the cache and receives the original call's own unresolved promise; the
original's resolution awaits the retry's value, which awaits that same promise
— a circular wait, so the call never settles. -/
def fetchSleeperAPICached (pending : List String) (endpoint : String)
    (oracle : String → Nat → HttpResponse) (retryCount : Nat) :
    CachedOutcome × List Nat :=
  if endpoint ∈ pending then
    (.neverSettles, [])
  else
    let response := oracle endpoint retryCount
    if responseOk response then
      match response.body with
      | .htmlLike =>
        if h : retryCount < maxRetries then
          let rec' := fetchSleeperAPICached (endpoint :: pending) endpoint oracle (retryCount + 1)
          (rec'.1, baseDelay * 2 ^ retryCount :: rec'.2)
        else (.settled (.error .rateLimitedHtml), [])
      | .badJson =>
        if h : retryCount < maxRetries then
          let rec' := fetchSleeperAPICached (endpoint :: pending) endpoint oracle (retryCount + 1)
          (rec'.1, baseDelay * 2 ^ retryCount :: rec'.2)
        else (.settled (.error .jsonSyntax), [])
      | .jsonData d => (.settled (.ok d), [])
    else
      if response.status = 429 then
        if h : retryCount < maxRetries then
          let rec' := fetchSleeperAPICached (endpoint :: pending) endpoint oracle (retryCount + 1)
          (rec'.1, baseDelay * 2 ^ retryCount :: rec'.2)
        else (.settled (.error .rateLimited429), [])
      else (.settled (.error (.upstream response.status)), [])
termination_by maxRetries + 1 - retryCount
decreasing_by all_goals omega

/-- A top-level `fetchSleeperAPI(endpoint)` call on a fresh endpoint: the
pending-promise cache starts without an entry for it. -/
def fetchSleeperAPIWithCache (endpoint : String)
    (oracle : String → Nat → HttpResponse) : CachedOutcome × List Nat :=
  fetchSleeperAPICached [] endpoint oracle 0

/-- `getUsers` (src/lib/sleeper.ts:184-186): fetch `/league/{id}/users` —
no allow-list check of any kind happens on this path. -/
def getUsers (leagueId : String) (oracle : String → Nat → HttpResponse) :
    FetchOutcome × List Nat :=
  fetchSleeperAPI ("/league/" ++ leagueId ++ "/users") oracle 0

end RequestCoordinator

section ProxyRoute

/-- The static allow-list (src/config/leagues.ts:10-17). -/
def allowedLeagueIds : List String :=
  ["1269339474479824896", "1269338777323581440", "1269338223918714880",
   "1267607910209306624", "1267631483950989312", "1267631730034999296"]

/-- What the route handler can answer with
(src/app/api/sleeper/[...path]/route.ts): a 400 invalid-path error, the 403
not-allowed error, a passed-through upstream error status, or the raw body
(hash header not modelled). -/
inductive RouteResult where
  | invalidPath
  | notAllowed
  | upstreamStatus (status : Nat)
  | okBody (raw : String)
deriving DecidableEq

/-- An upstream response as the route sees it: status and raw text. -/
structure UpstreamHttp where
  status : Nat
  text : String
deriving DecidableEq

/-- The `/^\/league\/([^/]+)/` match on the joined path: the league id is the
segment after a leading `league` segment (non-empty; path segments carry no
slashes, so the joined-string regex and this segment-level match agree). -/
def leagueMatchOf (pathSegs : List String) : Option String :=
  match pathSegs with
  | "league" :: id :: _ => if id = "" then none else some id
  | _ => none

/-- `path.startsWith("/league/")` on the joined path, at segment level: the
first segment is `league` and a `/` follows it (i.e. a second segment exists). -/
def pathHasLeaguePrefix (pathSegs : List String) : Bool :=
  match pathSegs with
  | "league" :: _ :: _ => true
  | _ => false

/-- `path.startsWith("/draft/")` at segment level. -/
def pathHasDraftPrefix (pathSegs : List String) : Bool :=
  match pathSegs with
  | "draft" :: _ :: _ => true
  | _ => false

/-- The `GET` handler (src/app/api/sleeper/[...path]/route.ts:4-53),
parameterized by the upstream fetch as an oracle from URL to response: validate
the path shape, reject non-allow-listed league ids with 403 before fetching,
then pass the upstream response through. -/
def routeGET (pathSegs : List String) (fetchUpstream : String → UpstreamHttp) : RouteResult :=
  let path := "/" ++ String.intercalate "/" pathSegs
  if ¬(pathHasLeaguePrefix pathSegs ∨ pathHasDraftPrefix pathSegs) then .invalidPath
  else if (match leagueMatchOf pathSegs with
           | some id => !(allowedLeagueIds.contains id)
           | none => false) then .notAllowed
  else
    let res := fetchUpstream ("https://api.sleeper.app/v1" ++ path)
    if ¬(200 ≤ res.status ∧ res.status < 300) then .upstreamStatus res.status
    else .okBody res.text

end ProxyRoute

section DemoInputs

/-- Entries for the probability demos: roster 1 leads roster 2 by 50 points,
which saturates the advantage curve. -/
def pairDemoEntries : List MatchupEntry :=
  [⟨1, 1, some 100, none⟩, ⟨2, 1, some 50, none⟩]

/-- Placeholder team used only as a `headD` default in demos. -/
def dummyTeam : MatchupTeam :=
  { rosterId := 0, teamName := "", ownerName := "", points := none
    projection := 0, winProbability := none, isPreGame := false }

/-- Placeholder matchup used only as a `headD` default in demos. -/
def dummyMatchup : ProcessedMatchup :=
  { matchupId := 0, teams := (dummyTeam, dummyTeam) }

/-- The single processed matchup of `pairDemoEntries`. -/
def pairDemo : ProcessedMatchup :=
  (processMatchupsForDisplay pairDemoEntries [] [] 1).headD dummyMatchup

/-- Entries for the C2 counterexample: roster 1 has scored 0 with a non-empty
starters list, roster 2 is fully pre-game. -/
def preGameDemoEntries : List MatchupEntry :=
  [⟨1, 1, some 0, some ["p1"]⟩, ⟨2, 1, none, some []⟩]

/-- Rosters for the C5 witness: identical wins and points-for, distinct ids. -/
def tieRosterA : SleeperRoster :=
  ⟨7, none, ⟨some 5, some 2, some 0, some 100, some 25, some 90, some 10, none⟩⟩

/-- Second tied roster for the C5 witness. -/
def tieRosterB : SleeperRoster :=
  ⟨3, none, ⟨some 5, some 2, some 0, some 100, some 25, some 90, some 10, none⟩⟩

/-- Twelve elimination-format entries scoring `150, 140, …, 40` (roster ids
1–12, all with starters locked). -/
def twelveTeamEntries : List MatchupEntry :=
  [⟨1, 1, some 150, some ["a"]⟩, ⟨2, 2, some 140, some ["a"]⟩, ⟨3, 3, some 130, some ["a"]⟩,
   ⟨4, 4, some 120, some ["a"]⟩, ⟨5, 5, some 110, some ["a"]⟩, ⟨6, 6, some 100, some ["a"]⟩,
   ⟨7, 7, some 90, some ["a"]⟩, ⟨8, 8, some 80, some ["a"]⟩, ⟨9, 9, some 70, some ["a"]⟩,
   ⟨10, 10, some 60, some ["a"]⟩, ⟨11, 11, some 50, some ["a"]⟩, ⟨12, 12, some 40, some ["a"]⟩]

/-- Placeholder ranked row used only as a `getD` default in demos. -/
def dummyRankedRow : RankedGuillotineRow :=
  { rosterId := 0, ownerName := "", points := none, projectedPoints := 0
    isPreGame := true, rank := 0, safetyPercentage := 0, zone := "" }

/-- A rate-limit signal as `fetchSleeperAPI` detects it: HTTP 429, or a 2xx
response whose body looks like HTML instead of JSON. -/
def rateSignal (r : HttpResponse) : Prop :=
  r.status = 429 ∨ (responseOk r = true ∧ r.body = .htmlLike)

/-- Network oracle answering every attempt with a bare 429. -/
def always429 : String → Nat → HttpResponse :=
  fun _ _ => ⟨429, .badJson⟩

/-- Upstream oracle for the C7 witness. -/
def demoUpstream : String → UpstreamHttp :=
  fun _ => ⟨200, "body"⟩

/-- All-JSON network oracle for the C7 witness. -/
def jsonOracle : String → Nat → HttpResponse :=
  fun _ _ => ⟨200, .jsonData "users-payload"⟩

/-- Roster with `fpts = 123` present but `fpts_decimal` missing. -/
def halfRoster : SleeperRoster :=
  ⟨9, none, ⟨some 4, some 3, some 0, some 123, none, some 90, some 10, none⟩⟩

/-- Fetch environment for the C1 witness: weeks 1–2 deliver empty arrays, week
3 is the first with a positive point value, week 4 also has data, week 5 fails. -/
def envScanDemo : WeekEnv :=
  { matchups := fun w =>
      if w = 3 ∨ w = 4 then some [⟨1, 1, some 50, none⟩, ⟨2, 1, some 40, none⟩]
      else if w = 5 then none
      else some []
    league := some ⟨some "standard"⟩ }

end DemoInputs


/-! ### Supporting lemmas -/

lemma scanWeeks_eq_some_of_first (env : WeekEnv) :
    ∀ (len s w₀ : Nat), s ≤ w₀ → w₀ < s + len → weekQualifies env w₀ = true →
      (∀ w, s ≤ w → w < w₀ → weekQualifies env w = false) →
      scanWeeks env (List.range' s len) = some w₀ := by
  intro len
  induction len with
  | zero => intro s w₀ h1 h2 _ _; omega
  | succ n ih =>
    intro s w₀ h1 h2 hq hbefore
    rw [List.range'_succ]
    by_cases hs : s = w₀
    · subst hs
      simp [scanWeeks, hq]
    · have hlt : s < w₀ := by omega
      have hfalse := hbefore s (Nat.le_refl s) hlt
      simp only [scanWeeks, hfalse]
      exact ih (s + 1) w₀ (by omega) (by omega) hq (fun w hw1 hw2 => hbefore w (by omega) hw2)

lemma scanWeeks_eq_none_of_all (env : WeekEnv) :
    ∀ (len s : Nat), (∀ w, s ≤ w → w < s + len → weekQualifies env w = false) →
      scanWeeks env (List.range' s len) = none := by
  intro len
  induction len with
  | zero => intro s _; simp [scanWeeks]
  | succ n ih =>
    intro s hall
    rw [List.range'_succ]
    have hfalse := hall s (Nat.le_refl s) (by omega)
    simp only [scanWeeks, hfalse]
    exact ih (s + 1) (fun w hw1 hw2 => hall w (by omega) (by omega))

/-! ### C1 — Week Inference -/

/-- C1: `getLatestWeekWithData` scans weeks `1..provisional` in ascending
order, classifies a week as having data iff some entry has positive points or a
non-empty starters list, returns the first such week, treats a failed fetch as
no data, and falls back to the provisional week (or `1` for survivor/pick'em
leagues, or `1` when even the league fetch fails). -/
theorem getLatestWeekWithData_ascending_scan (env : WeekEnv) (provisional : Nat) :
    (∀ w₀, 1 ≤ w₀ → w₀ ≤ provisional → weekQualifies env w₀ = true →
      (∀ w, 1 ≤ w → w < w₀ → weekQualifies env w = false) →
      getLatestWeekWithData env provisional = w₀)
    ∧ (∀ w, env.matchups w = none → weekQualifies env w = false)
    ∧ (∀ ms w, env.matchups w = some ms →
        (weekQualifies env w = true ↔ (∃ m ∈ ms, matchupHasPoints m = true) ∨
          (∃ m ∈ ms, matchupHasStarters m = true)))
    ∧ ((∀ w, 1 ≤ w → w ≤ provisional → weekQualifies env w = false) →
        (∀ lg, env.league = some lg →
          ((leagueTypeOf lg = "survivor" ∨ leagueTypeOf lg = "pick_em") →
            getLatestWeekWithData env provisional = 1)
          ∧ (¬(leagueTypeOf lg = "survivor" ∨ leagueTypeOf lg = "pick_em") →
            getLatestWeekWithData env provisional = provisional))
        ∧ (env.league = none → getLatestWeekWithData env provisional = 1)) := by
  refine ⟨?_, ?_, ?_, ?_⟩
  · intro w₀ h1 h2 hq hbefore
    unfold getLatestWeekWithData
    rw [scanWeeks_eq_some_of_first env provisional 1 w₀ h1 (by omega) hq
      (fun w hw1 hw2 => hbefore w hw1 hw2)]
  · intro w hw
    simp [weekQualifies, hw]
  · intro ms w hw
    simp only [weekQualifies, hw]
    constructor
    · intro h
      by_cases hlen : ms.length = 0
      · simp [hlen] at h
      · simp only [hlen, if_false] at h
        by_cases hp : 0 < (ms.filter matchupHasPoints).length
        · left
          obtain ⟨m, hm⟩ := List.exists_mem_of_length_pos hp
          exact ⟨m, (List.mem_filter.mp hm).1, (List.mem_filter.mp hm).2⟩
        · simp only [hp, if_false, decide_eq_true_eq] at h
          right
          obtain ⟨m, hm⟩ := List.exists_mem_of_length_pos h
          exact ⟨m, (List.mem_filter.mp hm).1, (List.mem_filter.mp hm).2⟩
    · intro h
      have hlen : ms.length ≠ 0 := by
        rcases h with ⟨m, hm, _⟩ | ⟨m, hm, _⟩ <;>
          exact List.ne_nil_of_mem hm |> fun hne => by
            simpa [List.length_eq_zero] using hne
      simp only [hlen, if_false]
      rcases h with ⟨m, hm, hmp⟩ | ⟨m, hm, hms⟩
      · have : m ∈ ms.filter matchupHasPoints := List.mem_filter.mpr ⟨hm, hmp⟩
        simp [List.length_pos_of_mem this]
      · by_cases hp : 0 < (ms.filter matchupHasPoints).length
        · simp [hp]
        · have : m ∈ ms.filter matchupHasStarters := List.mem_filter.mpr ⟨hm, hms⟩
          simp [hp, List.length_pos_of_mem this]
  · intro hall
    have hnone : scanWeeks env (List.range' 1 provisional) = none :=
      scanWeeks_eq_none_of_all env provisional 1
        (fun w hw1 hw2 => hall w hw1 (by omega))
    constructor
    · intro lg hlg
      constructor
      · intro hty
        unfold getLatestWeekWithData
        rw [hnone, hlg]
        simp [hty]
      · intro hty
        unfold getLatestWeekWithData
        rw [hnone, hlg]
        simp [hty]
    · intro hlg
      unfold getLatestWeekWithData
      rw [hnone, hlg]

lemma mem_processMatchupsForDisplay {ms : List MatchupEntry} {users : List SleeperUser}
    {rosters : List SleeperRoster} {week : Int} {m : ProcessedMatchup}
    (h : m ∈ processMatchupsForDisplay ms users rosters week) :
    ∃ mid e1 e2, m = processPair users rosters week mid e1 e2 := by
  unfold processMatchupsForDisplay at h
  obtain ⟨g, _, hg⟩ := List.mem_filterMap.mp h
  rcases g with ⟨mid, gl⟩
  match gl with
  | [] => simp at hg
  | [e] => simp at hg
  | [e1, e2] => exact ⟨mid, e1, e2, by simpa using hg.symm⟩
  | e1 :: e2 :: e3 :: rest => simp at hg

lemma mem_processMatchupsForDisplayV2 {ms : List MatchupEntry} {users : List SleeperUser}
    {rosters : List SleeperRoster} {week : Int} {m : ProcessedMatchup}
    (h : m ∈ processMatchupsForDisplayV2 ms users rosters week) :
    ∃ mid e1 e2, m = processPairV2 users rosters week mid e1 e2 := by
  unfold processMatchupsForDisplayV2 at h
  obtain ⟨g, _, hg⟩ := List.mem_filterMap.mp h
  rcases g with ⟨mid, gl⟩
  match gl with
  | [] => simp at hg
  | [e] => simp at hg
  | [e1, e2] => exact ⟨mid, e1, e2, by simpa using hg.symm⟩
  | e1 :: e2 :: e3 :: rest => simp at hg

lemma processPair_teams_winProbability (users : List SleeperUser)
    (rosters : List SleeperRoster) (week mid : Int) (e1 e2 : MatchupEntry) :
    (processPair users rosters week mid e1 e2).teams.1.winProbability =
      (rawWinProbA (mkTeamForDisplay users rosters week e1)
        (mkTeamForDisplay users rosters week e2)).map (clampProb (1 / 10) (9 / 10))
    ∧ (processPair users rosters week mid e1 e2).teams.2.winProbability =
      ((rawWinProbA (mkTeamForDisplay users rosters week e1)
        (mkTeamForDisplay users rosters week e2)).map (clampProb (1 / 10) (9 / 10))).map
        (fun p => 1 - p) := by
  constructor <;> rfl

lemma processPairV2_teams_winProbability (users : List SleeperUser)
    (rosters : List SleeperRoster) (week mid : Int) (e1 e2 : MatchupEntry) :
    (processPairV2 users rosters week mid e1 e2).teams.1.winProbability =
      (rawWinProbAV2 (mkTeamForDisplayV2 users rosters week e1)
        (mkTeamForDisplayV2 users rosters week e2)).map (clampProb (15 / 100) (85 / 100))
    ∧ (processPairV2 users rosters week mid e1 e2).teams.2.winProbability =
      ((rawWinProbAV2 (mkTeamForDisplayV2 users rosters week e1)
        (mkTeamForDisplayV2 users rosters week e2)).map (clampProb (15 / 100) (85 / 100))).map
        (fun p => 1 - p) := by
  constructor <;> rfl

/-! ### C3 — probability complement -/

/-- C3: in every processed head-to-head matchup (either variant), the second
side's win probability is exactly `1 - p` whenever the first side's probability
`p` is defined, and `null` whenever it is `null`. -/
theorem winProbability_complement (ms : List MatchupEntry) (users : List SleeperUser)
    (rosters : List SleeperRoster) (week : Int) :
    (∀ m ∈ processMatchupsForDisplay ms users rosters week,
      (∀ p, m.teams.1.winProbability = some p → m.teams.2.winProbability = some (1 - p))
      ∧ (m.teams.1.winProbability = none → m.teams.2.winProbability = none))
    ∧ (∀ m ∈ processMatchupsForDisplayV2 ms users rosters week,
      (∀ p, m.teams.1.winProbability = some p → m.teams.2.winProbability = some (1 - p))
      ∧ (m.teams.1.winProbability = none → m.teams.2.winProbability = none)) := by
  constructor
  · intro m hm
    obtain ⟨mid, e1, e2, rfl⟩ := mem_processMatchupsForDisplay hm
    obtain ⟨h1, h2⟩ := processPair_teams_winProbability users rosters week mid e1 e2
    constructor
    · intro p hp
      rw [h2, h1.symm, hp]
      rfl
    · intro hp
      rw [h2, h1.symm, hp]
      rfl
  · intro m hm
    obtain ⟨mid, e1, e2, rfl⟩ := mem_processMatchupsForDisplayV2 hm
    obtain ⟨h1, h2⟩ := processPairV2_teams_winProbability users rosters week mid e1 e2
    constructor
    · intro p hp
      rw [h2, h1.symm, hp]
      rfl
    · intro hp
      rw [h2, h1.symm, hp]
      rfl

/-- C3 witness: on the 100-vs-50 demo the first side's probability is defined
and the second side receives exactly its complement. -/
theorem winProbability_complement_witness :
    pairDemo.teams.2.winProbability = some (1 / 10) := by
  have h := (winProbability_complement pairDemoEntries [] [] 1).1 pairDemo (by decide)
  calc pairDemo.teams.2.winProbability
      = some (1 - 9 / 10) := h.1 (9 / 10) (by decide)
    _ = some (1 / 10) := by decide

/-! ### C4 — probability clamping (corrected) -/

lemma clampProb_mem {lo hi : ℚ} (hlohi : lo ≤ hi) (p : ℚ) :
    lo ≤ clampProb lo hi p ∧ clampProb lo hi p ≤ hi := by
  unfold clampProb mathMax mathMin
  split_ifs <;> constructor <;> linarith

/-- C4 (amended): every defined win probability lies in the CLOSED clamp
interval — `[0.10, 0.90]` in the first variant, `[0.15, 0.85]` in the second —
and hence strictly between 0 and 1; equality with the interval's endpoints is
attainable (see the counterexample). -/
theorem winProbability_clamped (ms : List MatchupEntry) (users : List SleeperUser)
    (rosters : List SleeperRoster) (week : Int) :
    (∀ m ∈ processMatchupsForDisplay ms users rosters week, ∀ p,
      (m.teams.1.winProbability = some p ∨ m.teams.2.winProbability = some p) →
      1 / 10 ≤ p ∧ p ≤ 9 / 10 ∧ 0 < p ∧ p < 1)
    ∧ (∀ m ∈ processMatchupsForDisplayV2 ms users rosters week, ∀ p,
      (m.teams.1.winProbability = some p ∨ m.teams.2.winProbability = some p) →
      15 / 100 ≤ p ∧ p ≤ 85 / 100 ∧ 0 < p ∧ p < 1) := by
  constructor
  · intro m hm p hp
    obtain ⟨mid, e1, e2, rfl⟩ := mem_processMatchupsForDisplay hm
    obtain ⟨h1, h2⟩ := processPair_teams_winProbability users rosters week mid e1 e2
    have hbounds : 1 / 10 ≤ p ∧ p ≤ 9 / 10 := by
      rcases hp with hp | hp
      · rw [h1] at hp
        obtain ⟨q, _, rfl⟩ := Option.map_eq_some'.mp hp
        exact clampProb_mem (by norm_num) q
      · rw [h2] at hp
        obtain ⟨x, hx, hxp⟩ := Option.map_eq_some'.mp hp
        obtain ⟨q, _, hq⟩ := Option.map_eq_some'.mp hx
        have hb := clampProb_mem (show (1:ℚ)/10 ≤ 9/10 by norm_num) q
        rw [hq] at hb
        constructor <;> linarith [hb.1, hb.2]
    exact ⟨hbounds.1, hbounds.2, by linarith [hbounds.1], by linarith [hbounds.2]⟩
  · intro m hm p hp
    obtain ⟨mid, e1, e2, rfl⟩ := mem_processMatchupsForDisplayV2 hm
    obtain ⟨h1, h2⟩ := processPairV2_teams_winProbability users rosters week mid e1 e2
    have hbounds : 15 / 100 ≤ p ∧ p ≤ 85 / 100 := by
      rcases hp with hp | hp
      · rw [h1] at hp
        obtain ⟨q, _, rfl⟩ := Option.map_eq_some'.mp hp
        exact clampProb_mem (by norm_num) q
      · rw [h2] at hp
        obtain ⟨x, hx, hxp⟩ := Option.map_eq_some'.mp hp
        obtain ⟨q, _, hq⟩ := Option.map_eq_some'.mp hx
        have hb := clampProb_mem (show (15:ℚ)/100 ≤ 85/100 by norm_num) q
        rw [hq] at hb
        constructor <;> linarith [hb.1, hb.2]
    exact ⟨hbounds.1, hbounds.2, by linarith [hbounds.1], by linarith [hbounds.2]⟩

/-- C4 counterexample to the claim as stated: on the 100-vs-50 demo the defined
probabilities are exactly `0.9` and `0.1` — EQUAL to the endpoints of the
`[0.10, 0.90]` clamp interval, not strictly inside it. -/
theorem winProbability_hits_clamp_endpoint :
    pairDemo.teams.1.winProbability = some (9 / 10)
    ∧ pairDemo.teams.2.winProbability = some (1 / 10) := by
  constructor <;> decide

/-- C4 witness: the clamped bounds instantiated on the demo matchup. -/
theorem winProbability_clamped_witness :
    1 / 10 ≤ (9 / 10 : ℚ) ∧ (9 / 10 : ℚ) ≤ 9 / 10 ∧ 0 < (9 / 10 : ℚ) ∧ (9 / 10 : ℚ) < 1 :=
  (winProbability_clamped pairDemoEntries [] [] 1).1 pairDemo (by decide) (9 / 10)
    (Or.inl (by decide))

/-! ### C2 — pre-game detection (corrected) -/

/-- C2 (amended): the head-to-head deriver never consults starters — a side is
pre-game iff its coerced points value `Number(points ?? 0)` is `0`, and when
both sides of a pair are pre-game both probabilities are `null`.  The
starters-based rule (`points = 0` with non-empty starters counts as played)
holds only in the guillotine deriver, whose probability is the constant `0.5`
rather than `null`. -/
theorem preGame_detection (users : List SleeperUser) (rosters : List SleeperRoster)
    (week : Int) (e : MatchupEntry) :
    ((mkTeamForDisplay users rosters week e).isPreGame = true ↔ jsNullish e.points 0 = 0)
    ∧ (∀ e2 mid, jsNullish e.points 0 = 0 → jsNullish e2.points 0 = 0 →
        (processPair users rosters week mid e e2).teams.1.winProbability = none
        ∧ (processPair users rosters week mid e e2).teams.2.winProbability = none
        ∧ (processPair users rosters week mid e e2).teams.1.isPreGame = true
        ∧ (processPair users rosters week mid e e2).teams.2.isPreGame = true)
    ∧ (e.points = none →
        (mkGuillotineTeam users rosters week e).isPreGame = true
        ∧ (mkGuillotineTeam users rosters week e).winProbability = some (1 / 2))
    ∧ (e.points = some 0 → matchupHasStarters e = true →
        (mkGuillotineTeam users rosters week e).isPreGame = false) := by
  refine ⟨?_, ?_, ?_, ?_⟩
  · unfold mkTeamForDisplay
    by_cases h : jsNullish e.points 0 = 0 <;> simp [h]
  · intro e2 mid h1 h2
    have ht1 : (mkTeamForDisplay users rosters week e).points = none := by
      unfold mkTeamForDisplay
      simp [h1]
    have ht2 : (mkTeamForDisplay users rosters week e2).points = none := by
      unfold mkTeamForDisplay
      simp [h2]
    have hraw : rawWinProbA (mkTeamForDisplay users rosters week e)
        (mkTeamForDisplay users rosters week e2) = none := by
      unfold rawWinProbA
      simp [ht1, ht2]
    obtain ⟨hp1, hp2⟩ :=
      processPair_teams_winProbability users rosters week mid e e2
    refine ⟨?_, ?_, ?_, ?_⟩
    · rw [hp1, hraw]
      rfl
    · rw [hp2, hraw]
      rfl
    · show (mkTeamForDisplay users rosters week e).isPreGame = true
      unfold mkTeamForDisplay
      simp [h1]
    · show (mkTeamForDisplay users rosters week e2).isPreGame = true
      unfold mkTeamForDisplay
      simp [h2]
  · intro h
    unfold mkGuillotineTeam
    simp [h]
  · intro h hs
    unfold mkGuillotineTeam
    simp [h, hs]

/-- C2 counterexample to the claim as stated: in the head-to-head deriver the
side with `points = 0` and non-empty starters still comes out with
`isPreGame = true` (the claim requires `false`). -/
theorem preGame_starters_counterexample :
    ((processMatchupsForDisplay preGameDemoEntries [] [] 1).headD dummyMatchup).teams.1.isPreGame
      = true
    ∧ (preGameDemoEntries.headD ⟨0, 0, none, none⟩).points = some 0
    ∧ matchupHasStarters (preGameDemoEntries.headD ⟨0, 0, none, none⟩) = true := by
  refine ⟨?_, ?_, ?_⟩ <;> decide

/-- C2 witness: the amended rules instantiated — a null-points entry is
pre-game in both derivers, a both-pre-game pair carries null probabilities, and
the zero-with-starters entry counts as played in the guillotine deriver. -/
theorem preGame_detection_witness :
    (mkTeamForDisplay [] [] 1 ⟨2, 1, none, some []⟩).isPreGame = true
    ∧ (processPair [] [] 1 1 ⟨2, 1, none, some []⟩ ⟨1, 1, some 0, some ["p1"]⟩).teams.1.winProbability = none
    ∧ (mkGuillotineTeam [] [] 1 ⟨2, 1, none, some []⟩).isPreGame = true
    ∧ (mkGuillotineTeam [] [] 1 ⟨1, 1, some 0, some ["p1"]⟩).isPreGame = false := by
  refine ⟨?_, ?_, ?_, ?_⟩
  · exact (preGame_detection [] [] 1 ⟨2, 1, none, some []⟩).1.mpr (by decide)
  · exact ((preGame_detection [] [] 1 ⟨2, 1, none, some []⟩).2.1
      ⟨1, 1, some 0, some ["p1"]⟩ 1 (by decide) (by decide)).1
  · exact ((preGame_detection [] [] 1 ⟨2, 1, none, some []⟩).2.2.1 (by decide)).1
  · exact (preGame_detection [] [] 1 ⟨1, 1, some 0, some ["p1"]⟩).2.2.2 (by decide) (by decide)

/-! ### C5 — standings ordering -/

lemma standingsLE_iff (a b : StandingsRow) :
    standingsLE a b = true ↔
      b.wins < a.wins ∨ (b.wins = a.wins ∧ b.pointsFor ≤ a.pointsFor) := by
  unfold standingsLE standingsCmp
  rcases eq_or_ne b.wins a.wins with h | h
  · rw [if_neg (not_not_intro h)]
    simp only [decide_eq_true_eq, sub_nonpos]
    constructor
    · intro hle
      exact Or.inr ⟨h, hle⟩
    · rintro (hlt | ⟨_, hle⟩)
      · omega
      · exact hle
  · rw [if_pos h]
    simp only [decide_eq_true_eq, Int.cast_nonpos, sub_nonpos]
    constructor
    · intro hle
      exact Or.inl (by omega)
    · rintro (hlt | ⟨heq, _⟩)
      · omega
      · exact absurd heq h

lemma standingsLE_total : ∀ a b : StandingsRow, standingsLE a b || standingsLE b a := by
  intro a b
  rw [Bool.or_eq_true, standingsLE_iff, standingsLE_iff]
  rcases lt_trichotomy a.wins b.wins with h | h | h
  · exact Or.inr (Or.inl h)
  · rcases le_total a.pointsFor b.pointsFor with hp | hp
    · exact Or.inr (Or.inr ⟨h, hp⟩)
    · exact Or.inl (Or.inr ⟨h.symm, hp⟩)
  · exact Or.inl (Or.inl h)

lemma standingsLE_trans : ∀ a b c : StandingsRow,
    standingsLE a b → standingsLE b c → standingsLE a c := by
  intro a b c hab hbc
  rw [standingsLE_iff] at hab hbc ⊢
  rcases hab with h1 | ⟨h1, h1p⟩ <;> rcases hbc with h2 | ⟨h2, h2p⟩
  · exact Or.inl (by omega)
  · exact Or.inl (by omega)
  · exact Or.inl (by omega)
  · exact Or.inr ⟨by omega, by linarith⟩

/-- C5: `getStandingsData` returns the rows sorted by wins descending, then
points-for descending, and rows that tie on both keys keep their input order
(the output is a permutation of the mapped input, and any two-element sublist
of the input that ties on both keys is still a sublist of the output). -/
theorem getStandingsData_sorted (users : List SleeperUser) (rosters : List SleeperRoster) :
    (getStandingsData users rosters).Pairwise
        (fun a b => b.wins < a.wins ∨ (b.wins = a.wins ∧ b.pointsFor ≤ a.pointsFor))
    ∧ (getStandingsData users rosters).Perm (rosters.map (mkStandingsRow users))
    ∧ (∀ a b, List.Sublist [a, b] (rosters.map (mkStandingsRow users)) → a.wins = b.wins →
        a.pointsFor = b.pointsFor → List.Sublist [a, b] (getStandingsData users rosters)) := by
  refine ⟨?_, ?_, ?_⟩
  · have h := List.sorted_mergeSort
      (fun a b c hab hbc => standingsLE_trans a b c hab hbc)
      (fun a b => standingsLE_total a b)
      (rosters.map (mkStandingsRow users))
    exact h.imp (fun hab => (standingsLE_iff _ _).mp hab)
  · exact List.mergeSort_perm (rosters.map (mkStandingsRow users)) standingsLE
  · intro a b hsub hw hp
    apply List.pair_sublist_mergeSort
      (fun a b c hab hbc => standingsLE_trans a b c hab hbc)
      (fun a b => standingsLE_total a b)
      ?_ hsub
    rw [standingsLE_iff]
    exact Or.inr ⟨hw.symm, le_of_eq hp.symm⟩

/-- C5 witness: two rosters tied on wins and points-for come out in input
order (roster 7 before roster 3, exactly as fed in). -/
theorem getStandingsData_sorted_witness :
    List.Sublist [mkStandingsRow [] tieRosterA, mkStandingsRow [] tieRosterB]
      (getStandingsData [] [tieRosterA, tieRosterB]) := by
  apply (getStandingsData_sorted [] [tieRosterA, tieRosterB]).2.2
  · exact List.Sublist.refl _
  · decide
  · decide

/-! ### C6 / C10 — guillotine ranking, zones and constant probabilities -/

lemma guillotineLE_iff (a b : MatchupTeam) :
    guillotineLE a b = true ↔
      guillotineScore b < guillotineScore a ∨
        (guillotineScore a = guillotineScore b ∧ a.rosterId ≤ b.rosterId) := by
  unfold guillotineLE guillotineCmp
  rcases eq_or_ne (guillotineScore a) (guillotineScore b) with h | h
  · rw [if_pos h]
    simp only [decide_eq_true_eq, Int.cast_nonpos, sub_nonpos]
    constructor
    · intro hle
      exact Or.inr ⟨h, hle⟩
    · rintro (hlt | ⟨_, hle⟩)
      · rw [h] at hlt
        exact absurd hlt (lt_irrefl _)
      · exact hle
  · rw [if_neg h]
    simp only [decide_eq_true_eq, sub_nonpos]
    constructor
    · intro hle
      exact Or.inl (lt_of_le_of_ne hle (fun e => h e.symm))
    · rintro (hlt | ⟨heq, _⟩)
      · exact le_of_lt hlt
      · exact absurd heq h

lemma guillotineLE_total : ∀ a b : MatchupTeam, guillotineLE a b || guillotineLE b a := by
  intro a b
  rw [Bool.or_eq_true, guillotineLE_iff, guillotineLE_iff]
  rcases lt_trichotomy (guillotineScore a) (guillotineScore b) with h | h | h
  · exact Or.inr (Or.inl h)
  · rcases le_total a.rosterId b.rosterId with hr | hr
    · exact Or.inl (Or.inr ⟨h, hr⟩)
    · exact Or.inr (Or.inr ⟨h.symm, hr⟩)
  · exact Or.inl (Or.inl h)

lemma guillotineLE_trans : ∀ a b c : MatchupTeam,
    guillotineLE a b → guillotineLE b c → guillotineLE a c := by
  intro a b c hab hbc
  rw [guillotineLE_iff] at hab hbc ⊢
  rcases hab with h1 | ⟨h1, h1r⟩ <;> rcases hbc with h2 | ⟨h2, h2r⟩
  · exact Or.inl (lt_trans h2 h1)
  · exact Or.inl (by rw [h2] at h1; exact h1)
  · exact Or.inl (by rw [h1]; exact h2)
  · exact Or.inr ⟨by rw [h1, h2], le_trans h1r h2r⟩

lemma guillotineTableLE_total : ∀ a b : GuillotineRow, guillotineTableLE a b || guillotineTableLE b a := by
  intro a b
  unfold guillotineTableLE guillotineTableCmp
  rw [Bool.or_eq_true]
  rcases ha : a.points with _ | pa <;> rcases hb : b.points with _ | pb
  · simp only [decide_eq_true_eq, Int.cast_nonpos, sub_nonpos]
    omega
  · simp only [decide_eq_true_eq]
    right
    norm_num
  · simp only [decide_eq_true_eq]
    left
    norm_num
  · simp only [decide_eq_true_eq, sub_nonpos]
    exact le_total pb pa

lemma guillotineTableLE_trans : ∀ a b c : GuillotineRow,
    guillotineTableLE a b → guillotineTableLE b c → guillotineTableLE a c := by
  intro a b c hab hbc
  unfold guillotineTableLE guillotineTableCmp at hab hbc ⊢
  rcases ha : a.points with _ | pa <;> rcases hb : b.points with _ | pb <;>
    rcases hc : c.points with _ | pc <;>
    simp only [ha, hb, hc, decide_eq_true_eq, Int.cast_nonpos, sub_nonpos] at hab hbc ⊢
  all_goals first
    | omega
    | linarith

lemma processGuillotineStandings_get (ms : List MatchupEntry) (users : List SleeperUser)
    (rosters : List SleeperRoster) (week : Int) (i : Nat)
    (h : i < (processGuillotineStandings ms users rosters week).length)
    (h2 : i < ((ms.map (mkGuillotineTeam users rosters week)).mergeSort guillotineLE).length) :
    (processGuillotineStandings ms users rosters week).get ⟨i, h⟩ =
      { matchupId :=
          (((ms.map (mkGuillotineTeam users rosters week)).mergeSort guillotineLE).get
            ⟨i, h2⟩).rosterId
        teams :=
          (((ms.map (mkGuillotineTeam users rosters week)).mergeSort guillotineLE).get ⟨i, h2⟩,
            rankPlaceholder i) } := by
  unfold processGuillotineStandings
  simp [List.get_eq_getElem, List.enum_eq_enumFrom, List.getElem_enumFrom]

lemma processGuillotineStandingsV2_get (ms : List MatchupEntry) (users : List SleeperUser)
    (rosters : List SleeperRoster) (week : Int) (i : Nat)
    (h : i < (processGuillotineStandingsV2 ms users rosters week).length)
    (h2 : i < ((ms.map (mkGuillotineTeamV2 users rosters week)).mergeSort guillotineLEV2).length) :
    (processGuillotineStandingsV2 ms users rosters week).get ⟨i, h⟩ =
      { matchupId :=
          (((ms.map (mkGuillotineTeamV2 users rosters week)).mergeSort guillotineLEV2).get
            ⟨i, h2⟩).rosterId
        teams :=
          (((ms.map (mkGuillotineTeamV2 users rosters week)).mergeSort guillotineLEV2).get ⟨i, h2⟩,
            rankPlaceholder i) } := by
  unfold processGuillotineStandingsV2
  simp [List.get_eq_getElem, List.enum_eq_enumFrom, List.getElem_enumFrom]

lemma processGuillotineStandings_length (ms : List MatchupEntry) (users : List SleeperUser)
    (rosters : List SleeperRoster) (week : Int) :
    (processGuillotineStandings ms users rosters week).length =
      ((ms.map (mkGuillotineTeam users rosters week)).mergeSort guillotineLE).length := by
  unfold processGuillotineStandings
  simp [List.enum_eq_enumFrom]

lemma processGuillotineStandingsV2_length (ms : List MatchupEntry) (users : List SleeperUser)
    (rosters : List SleeperRoster) (week : Int) :
    (processGuillotineStandingsV2 ms users rosters week).length =
      ((ms.map (mkGuillotineTeamV2 users rosters week)).mergeSort guillotineLEV2).length := by
  unfold processGuillotineStandingsV2
  simp [List.enum_eq_enumFrom]

lemma guillotineTableRows_rank_zone (ms : List MatchupEntry) (users : List SleeperUser)
    (rosters : List SleeperRoster) (i : Nat)
    (h : i < (guillotineTableRows ms users rosters).length) :
    ((guillotineTableRows ms users rosters).get ⟨i, h⟩).rank = i + 1
    ∧ ((guillotineTableRows ms users rosters).get ⟨i, h⟩).zone =
        (if ((guillotineTableRows ms users rosters).get ⟨i, h⟩).isPreGame then "safety"
         else zoneOfRank (i + 1)) := by
  unfold guillotineTableRows
  simp [List.get_eq_getElem, List.enum_eq_enumFrom, List.getElem_enumFrom]

/-- C6: the guillotine deriver ranks by score (points, falling back to a
positive projection, else −1) descending with a roster-id tie-break; rank
labels run `1..N` in list order; the table assigns rank `index+1` and the fixed
bands (1–3 safest, 4–6 neutral, 7–9 at-risk, 10+ eliminated, with pre-game rows
overridden to the neutral zone); on twelve rosters scoring `150..40` the
150-scorer is rank 1 and the 40-scorer is rank 12 in the "chopped" band. -/
theorem guillotine_ranked_zones (ms : List MatchupEntry) (users : List SleeperUser)
    (rosters : List SleeperRoster) (week : Int) :
    ((processGuillotineStandings ms users rosters week).map (fun m => m.teams.1)).Pairwise
        (fun a b => guillotineScore b < guillotineScore a ∨
          (guillotineScore a = guillotineScore b ∧ a.rosterId ≤ b.rosterId))
    ∧ (∀ i (h : i < (processGuillotineStandings ms users rosters week).length),
        ((processGuillotineStandings ms users rosters week).get ⟨i, h⟩).teams.2.teamName =
          "Rank #" ++ toString (i + 1))
    ∧ (∀ i (h : i < (guillotineTableRows ms users rosters).length),
        ((guillotineTableRows ms users rosters).get ⟨i, h⟩).rank = i + 1
        ∧ (((guillotineTableRows ms users rosters).get ⟨i, h⟩).isPreGame = false →
            ((guillotineTableRows ms users rosters).get ⟨i, h⟩).zone = zoneOfRank (i + 1)))
    ∧ (∀ r : Nat, (1 ≤ r → r ≤ 3 → zoneOfRank r = "super-safety")
        ∧ (4 ≤ r → r ≤ 6 → zoneOfRank r = "safety")
        ∧ (7 ≤ r → r ≤ 9 → zoneOfRank r = "danger")
        ∧ (10 ≤ r → zoneOfRank r = "chopped"))
    ∧ (guillotineTableRows twelveTeamEntries [] []).length = 12
    ∧ ((guillotineTableRows twelveTeamEntries [] []).headD dummyRankedRow).points = some 150
    ∧ ((guillotineTableRows twelveTeamEntries [] []).headD dummyRankedRow).rank = 1
    ∧ ((guillotineTableRows twelveTeamEntries [] []).getD 11 dummyRankedRow).points = some 40
    ∧ ((guillotineTableRows twelveTeamEntries [] []).getD 11 dummyRankedRow).rank = 12
    ∧ ((guillotineTableRows twelveTeamEntries [] []).getD 11 dummyRankedRow).zone = "chopped" := by
  have hsortedDemo : (twelveTeamEntries.map (mkGuillotineRow [] [])).Pairwise
      (fun a b => guillotineTableLE a b = true) := by
    decide
  have hsDemo : (twelveTeamEntries.map (mkGuillotineRow [] [])).mergeSort guillotineTableLE =
      twelveTeamEntries.map (mkGuillotineRow [] []) :=
    List.mergeSort_of_sorted hsortedDemo
  refine ⟨?_, ?_, ?_, ?_, ?_, ?_, ?_, ?_, ?_, ?_⟩
  · have hmap : (processGuillotineStandings ms users rosters week).map (fun m => m.teams.1) =
        (ms.map (mkGuillotineTeam users rosters week)).mergeSort guillotineLE := by
      unfold processGuillotineStandings
      rw [List.map_map]
      rw [show ((fun m : ProcessedMatchup => m.teams.1) ∘
          (fun p : Nat × MatchupTeam =>
            ({ matchupId := p.2.rosterId, teams := (p.2, rankPlaceholder p.1) } : ProcessedMatchup)))
          = Prod.snd from rfl]
      rw [List.enum_eq_enumFrom, List.enumFrom_map_snd]
    rw [hmap]
    exact (List.sorted_mergeSort
      (fun a b c hab hbc => guillotineLE_trans a b c hab hbc)
      (fun a b => guillotineLE_total a b) _).imp (fun hab => (guillotineLE_iff _ _).mp hab)
  · intro i h
    rw [processGuillotineStandings_get ms users rosters week i h
      ((processGuillotineStandings_length ms users rosters week) ▸ h)]
    rfl
  · intro i h
    obtain ⟨hrank, hzone⟩ := guillotineTableRows_rank_zone ms users rosters i h
    refine ⟨hrank, fun hpre => ?_⟩
    rw [hzone, hpre]
    simp
  · intro r
    unfold zoneOfRank
    refine ⟨?_, ?_, ?_, ?_⟩ <;> intros <;> split_ifs <;> first | rfl | omega
  · simp only [guillotineTableRows, hsDemo]
    decide
  · simp only [guillotineTableRows, hsDemo]
    decide
  · simp only [guillotineTableRows, hsDemo]
    decide
  · simp only [guillotineTableRows, hsDemo]
    decide
  · simp only [guillotineTableRows, hsDemo]
    decide
  · simp only [guillotineTableRows, hsDemo]
    decide

/-- C6 witness: the ranked-zone facts instantiated on the twelve-team demo —
the first ranked matchup is labelled "Rank #1" and rank 12 is in the chopped
band. -/
theorem guillotine_ranked_zones_witness :
    ((processGuillotineStandings twelveTeamEntries [] [] 2).get
      ⟨0, by
        rw [processGuillotineStandings_length]
        simp [twelveTeamEntries]⟩).teams.2.teamName = "Rank #1"
    ∧ zoneOfRank 12 = "chopped" := by
  constructor
  · exact (guillotine_ranked_zones twelveTeamEntries [] [] 2).2.1 0 _
  · exact ((guillotine_ranked_zones twelveTeamEntries [] [] 2).2.2.2.1 12).2.2.2 (by omega)

/-- C10: in both guillotine variants every real team side carries the constant
win probability `0.5`, and its paired side is the synthetic rank placeholder
with roster id `999 + index`, points `0`, projection `0` and win probability
`0` — no guillotine output ever holds a score-derived probability. -/
theorem guillotine_constant_probabilities (ms : List MatchupEntry) (users : List SleeperUser)
    (rosters : List SleeperRoster) (week : Int) :
    (∀ i (h : i < (processGuillotineStandings ms users rosters week).length),
      ((processGuillotineStandings ms users rosters week).get ⟨i, h⟩).teams.1.winProbability =
        some (1 / 2)
      ∧ ((processGuillotineStandings ms users rosters week).get ⟨i, h⟩).teams.2 =
          rankPlaceholder i
      ∧ (rankPlaceholder i).rosterId = 999 + (i : Int)
      ∧ (rankPlaceholder i).points = some 0
      ∧ (rankPlaceholder i).projection = 0
      ∧ (rankPlaceholder i).winProbability = some 0)
    ∧ (∀ i (h : i < (processGuillotineStandingsV2 ms users rosters week).length),
      ((processGuillotineStandingsV2 ms users rosters week).get ⟨i, h⟩).teams.1.winProbability =
        some (1 / 2)
      ∧ ((processGuillotineStandingsV2 ms users rosters week).get ⟨i, h⟩).teams.2 =
          rankPlaceholder i) := by
  constructor
  · intro i h
    have h2 := (processGuillotineStandings_length ms users rosters week) ▸ h
    rw [processGuillotineStandings_get ms users rosters week i h h2]
    refine ⟨?_, rfl, rfl, rfl, rfl, rfl⟩
    have hmem : ((ms.map (mkGuillotineTeam users rosters week)).mergeSort guillotineLE).get
        ⟨i, h2⟩ ∈ (ms.map (mkGuillotineTeam users rosters week)).mergeSort guillotineLE :=
      List.get_mem _ _ h2
    rw [List.mem_mergeSort] at hmem
    obtain ⟨e, _, heq⟩ := List.mem_map.mp hmem
    show (((ms.map (mkGuillotineTeam users rosters week)).mergeSort guillotineLE).get
      ⟨i, h2⟩).winProbability = some (1 / 2)
    rw [← heq]
    rfl
  · intro i h
    have h2 := (processGuillotineStandingsV2_length ms users rosters week) ▸ h
    rw [processGuillotineStandingsV2_get ms users rosters week i h h2]
    refine ⟨?_, rfl⟩
    have hmem : ((ms.map (mkGuillotineTeamV2 users rosters week)).mergeSort guillotineLEV2).get
        ⟨i, h2⟩ ∈ (ms.map (mkGuillotineTeamV2 users rosters week)).mergeSort guillotineLEV2 :=
      List.get_mem _ _ h2
    rw [List.mem_mergeSort] at hmem
    obtain ⟨e, _, heq⟩ := List.mem_map.mp hmem
    show (((ms.map (mkGuillotineTeamV2 users rosters week)).mergeSort guillotineLEV2).get
      ⟨i, h2⟩).winProbability = some (1 / 2)
    rw [← heq]
    rfl

/-- C10 witness: on the twelve-team demo, the top row's probability is the
constant `0.5` and its placeholder partner has roster id `999`. -/
theorem guillotine_constant_probabilities_witness :
    ((processGuillotineStandings twelveTeamEntries [] [] 2).get
      ⟨0, by
        rw [processGuillotineStandings_length]
        simp [twelveTeamEntries]⟩).teams.1.winProbability = some (1 / 2)
    ∧ ((processGuillotineStandings twelveTeamEntries [] [] 2).get
      ⟨0, by
        rw [processGuillotineStandings_length]
        simp [twelveTeamEntries]⟩).teams.2 = rankPlaceholder 0 := by
  have h := (guillotine_constant_probabilities twelveTeamEntries [] [] 2).1 0
    (by
      rw [processGuillotineStandings_length]
      simp [twelveTeamEntries])
  exact ⟨h.1, h.2.1⟩

/-! ### C8 — retry / backoff policy -/

lemma fetchSleeperAPI_step_429 (endpoint : String) (oracle : String → Nat → HttpResponse)
    (k : Nat) (hk : k < maxRetries) (h429 : (oracle endpoint k).status = 429) :
    fetchSleeperAPI endpoint oracle k =
      ((fetchSleeperAPI endpoint oracle (k + 1)).1,
        baseDelay * 2 ^ k :: (fetchSleeperAPI endpoint oracle (k + 1)).2) := by
  have hnotok : responseOk (oracle endpoint k) = false := by
    simp [responseOk, h429]
  conv_lhs => rw [fetchSleeperAPI.eq_def]
  simp [hnotok, h429, hk]

lemma fetchSleeperAPI_step_html (endpoint : String) (oracle : String → Nat → HttpResponse)
    (k : Nat) (hk : k < maxRetries) (hok : responseOk (oracle endpoint k) = true)
    (hbody : (oracle endpoint k).body = .htmlLike) :
    fetchSleeperAPI endpoint oracle k =
      ((fetchSleeperAPI endpoint oracle (k + 1)).1,
        baseDelay * 2 ^ k :: (fetchSleeperAPI endpoint oracle (k + 1)).2) := by
  conv_lhs => rw [fetchSleeperAPI.eq_def]
  simp [hok, hbody, hk]

lemma fetchSleeperAPI_stop_429 (endpoint : String) (oracle : String → Nat → HttpResponse)
    (h429 : (oracle endpoint maxRetries).status = 429) :
    fetchSleeperAPI endpoint oracle maxRetries = (.error .rateLimited429, []) := by
  have hnotok : responseOk (oracle endpoint maxRetries) = false := by
    simp [responseOk, h429]
  conv_lhs => rw [fetchSleeperAPI.eq_def]
  simp [hnotok, h429]

lemma fetchSleeperAPI_stop_html (endpoint : String) (oracle : String → Nat → HttpResponse)
    (hok : responseOk (oracle endpoint maxRetries) = true)
    (hbody : (oracle endpoint maxRetries).body = .htmlLike) :
    fetchSleeperAPI endpoint oracle maxRetries = (.error .rateLimitedHtml, []) := by
  conv_lhs => rw [fetchSleeperAPI.eq_def]
  simp [hok, hbody]

lemma fetchSleeperAPI_upstream_immediate (endpoint : String)
    (oracle : String → Nat → HttpResponse) (k : Nat) (s : Nat)
    (hok : responseOk (oracle endpoint k) = false) (hs : (oracle endpoint k).status = s)
    (hne : s ≠ 429) :
    fetchSleeperAPI endpoint oracle k = (.error (.upstream s), []) := by
  conv_lhs => rw [fetchSleeperAPI.eq_def]
  simp [hok, hs, hne]

lemma fetchSleeperAPICached_hit (pending : List String) (endpoint : String)
    (oracle : String → Nat → HttpResponse) (k : Nat) (h : endpoint ∈ pending) :
    fetchSleeperAPICached pending endpoint oracle k = (.neverSettles, []) := by
  conv_lhs => rw [fetchSleeperAPICached.eq_def]
  simp [h]

lemma fetchSleeperAPICached_retry_hangs (endpoint : String)
    (oracle : String → Nat → HttpResponse)
    (hsig : rateSignal (oracle endpoint 0) ∨
      (responseOk (oracle endpoint 0) = true ∧ (oracle endpoint 0).body = .badJson)) :
    fetchSleeperAPIWithCache endpoint oracle = (.neverSettles, [1000]) := by
  have hhit : fetchSleeperAPICached (endpoint :: []) endpoint oracle (0 + 1) =
      (.neverSettles, []) :=
    fetchSleeperAPICached_hit (endpoint :: []) endpoint oracle (0 + 1) (by simp)
  unfold fetchSleeperAPIWithCache
  rcases hsig with hrs | hbad
  · rcases hrs with h429 | hhtml
    · have hnotok : responseOk (oracle endpoint 0) = false := by
        simp [responseOk, h429]
      conv_lhs => rw [fetchSleeperAPICached.eq_def]
      simp [hnotok, h429, hhit, show (0 : Nat) < maxRetries by decide, baseDelay]
    · conv_lhs => rw [fetchSleeperAPICached.eq_def]
      simp [hhtml.1, hhtml.2, hhit, show (0 : Nat) < maxRetries by decide, baseDelay]
  · conv_lhs => rw [fetchSleeperAPICached.eq_def]
    simp [hbad.1, hbad.2, hhit, show (0 : Nat) < maxRetries by decide, baseDelay]

lemma fetchSleeperAPICached_upstream (endpoint : String)
    (oracle : String → Nat → HttpResponse) (s : Nat)
    (hok : responseOk (oracle endpoint 0) = false) (hs : (oracle endpoint 0).status = s)
    (hne : s ≠ 429) :
    fetchSleeperAPIWithCache endpoint oracle = (.settled (.error (.upstream s)), []) := by
  unfold fetchSleeperAPIWithCache
  conv_lhs => rw [fetchSleeperAPICached.eq_def]
  simp [hok, hs, hne]

lemma fetchSleeperAPICached_json (endpoint : String)
    (oracle : String → Nat → HttpResponse) (d : String)
    (hok : responseOk (oracle endpoint 0) = true) (hd : (oracle endpoint 0).body = .jsonData d) :
    fetchSleeperAPIWithCache endpoint oracle = (.settled (.ok d), []) := by
  unfold fetchSleeperAPIWithCache
  conv_lhs => rw [fetchSleeperAPICached.eq_def]
  simp [hok, hd]

/-- C8 (code bug): the claim states the retry/backoff policy the code itself
documents ("Exponential backoff", "Rate limited after 3 retries"), and the
inner request closure implements it in isolation — but as wired, the
endpoint-keyed dedup cache intercepts every retry: the recursive call returns
the original call's own still-pending promise, so on a rate-limit signal the
coordinator issues ONE fetch, sleeps the first 1000 ms backoff once, and then
never settles — it never retries with delays `[1000, 2000, 4000]` and never
surfaces a rate-limited error.  Conjuncts: (1) the as-wired deadlock; (2) the
result depends only on the first attempt's response, i.e. no second fetch is
ever issued; (3) the immediate-upstream-error half of the claim is correct as
wired; (4) the success path is unaffected; (5) the inner retry logic in
isolation matches the claim, establishing the claim as the code's intent. -/
theorem fetchSleeperAPI_dedup_defeats_retry (endpoint : String)
    (oracle oracle2 : String → Nat → HttpResponse) :
    ((rateSignal (oracle endpoint 0) ∨
        (responseOk (oracle endpoint 0) = true ∧ (oracle endpoint 0).body = .badJson)) →
      fetchSleeperAPIWithCache endpoint oracle = (.neverSettles, [1000]))
    ∧ (oracle2 endpoint 0 = oracle endpoint 0 →
        fetchSleeperAPIWithCache endpoint oracle2 = fetchSleeperAPIWithCache endpoint oracle)
    ∧ (∀ s, responseOk (oracle endpoint 0) = false → (oracle endpoint 0).status = s →
        s ≠ 429 → fetchSleeperAPIWithCache endpoint oracle = (.settled (.error (.upstream s)), []))
    ∧ (∀ d, responseOk (oracle endpoint 0) = true → (oracle endpoint 0).body = .jsonData d →
        fetchSleeperAPIWithCache endpoint oracle = (.settled (.ok d), []))
    ∧ ((∀ i, i ≤ maxRetries → rateSignal (oracle endpoint i)) →
        (fetchSleeperAPI endpoint oracle 0).2 = [1000, 2000, 4000]
        ∧ ((fetchSleeperAPI endpoint oracle 0).1 = .error .rateLimited429
            ∨ (fetchSleeperAPI endpoint oracle 0).1 = .error .rateLimitedHtml)) := by
  refine ⟨?_, ?_, ?_, ?_, ?_⟩
  · exact fetchSleeperAPICached_retry_hangs endpoint oracle
  · intro heq
    by_cases hok : responseOk (oracle endpoint 0) = true
    · rcases hb : (oracle endpoint 0).body with _ | _ | d
      · rw [fetchSleeperAPICached_retry_hangs endpoint oracle (Or.inl (Or.inr ⟨hok, hb⟩)),
          fetchSleeperAPICached_retry_hangs endpoint oracle2
            (Or.inl (Or.inr ⟨by rw [heq]; exact hok, by rw [heq]; exact hb⟩))]
      · rw [fetchSleeperAPICached_retry_hangs endpoint oracle (Or.inr ⟨hok, hb⟩),
          fetchSleeperAPICached_retry_hangs endpoint oracle2
            (Or.inr ⟨by rw [heq]; exact hok, by rw [heq]; exact hb⟩)]
      · rw [fetchSleeperAPICached_json endpoint oracle d hok hb,
          fetchSleeperAPICached_json endpoint oracle2 d (by rw [heq]; exact hok)
            (by rw [heq]; exact hb)]
    · have hok' : responseOk (oracle endpoint 0) = false := by
        revert hok
        cases responseOk (oracle endpoint 0) <;> simp
      by_cases h429 : (oracle endpoint 0).status = 429
      · rw [fetchSleeperAPICached_retry_hangs endpoint oracle (Or.inl (Or.inl h429)),
          fetchSleeperAPICached_retry_hangs endpoint oracle2
            (Or.inl (Or.inl (by rw [heq]; exact h429)))]
      · rw [fetchSleeperAPICached_upstream endpoint oracle (oracle endpoint 0).status hok' rfl
            h429,
          fetchSleeperAPICached_upstream endpoint oracle2 (oracle endpoint 0).status
            (by rw [heq]; exact hok') (by rw [heq]) (by exact h429)]
  · intro s hok hs hne
    exact fetchSleeperAPICached_upstream endpoint oracle s hok hs hne
  · intro d hok hd
    exact fetchSleeperAPICached_json endpoint oracle d hok hd
  · intro hsig
    have step : ∀ k, k < maxRetries →
        fetchSleeperAPI endpoint oracle k =
          ((fetchSleeperAPI endpoint oracle (k + 1)).1,
            baseDelay * 2 ^ k :: (fetchSleeperAPI endpoint oracle (k + 1)).2) := by
      intro k hk
      rcases hsig k (by omega) with h429 | ⟨hok, hbody⟩
      · exact fetchSleeperAPI_step_429 endpoint oracle k hk h429
      · exact fetchSleeperAPI_step_html endpoint oracle k hk hok hbody
    have hstop : fetchSleeperAPI endpoint oracle (2 + 1) = (.error .rateLimited429, [])
        ∨ fetchSleeperAPI endpoint oracle (2 + 1) = (.error .rateLimitedHtml, []) := by
      rcases hsig maxRetries (by omega) with h429 | ⟨hok, hbody⟩
      · exact Or.inl (fetchSleeperAPI_stop_429 endpoint oracle h429)
      · exact Or.inr (fetchSleeperAPI_stop_html endpoint oracle hok hbody)
    have e0 := step 0 (by decide)
    have e1 := step 1 (by decide)
    have e2 := step 2 (by decide)
    rcases hstop with h3 | h3
    · rw [e0, e1, e2, h3]
      exact ⟨by norm_num [baseDelay], Or.inl rfl⟩
    · rw [e0, e1, e2, h3]
      exact ⟨by norm_num [baseDelay], Or.inr rfl⟩

/-- C8 witness: at the failing input — every upstream answer a bare 429 — the
as-wired coordinator sleeps one 1000 ms backoff and never settles, while the
inner retry logic in isolation would have waited 1000, 2000, 4000 ms and
surfaced the rate-limited error the claim describes. -/
theorem fetchSleeperAPI_dedup_defeats_retry_witness :
    fetchSleeperAPIWithCache "/league/x/matchups/1" always429 = (.neverSettles, [1000])
    ∧ (fetchSleeperAPI "/league/x/matchups/1" always429 0).2 = [1000, 2000, 4000] := by
  have h := fetchSleeperAPI_dedup_defeats_retry "/league/x/matchups/1" always429 always429
  exact ⟨h.1 (Or.inl (Or.inl rfl)), (h.2.2.2.2 (fun _ _ => Or.inl rfl)).1⟩

/-! ### C7 — allow-list enforcement (corrected) -/

/-- C7 (amended): the static allow-list is enforced only by the API proxy
route handler — a league path whose id is outside the list is answered 403
without consulting the upstream (the result is oracle-independent), and
allow-listed ids proceed to the upstream fetch; the library-level client
(`fetchSleeperAPI` / `getUsers`) performs no allow-list check at all and issues
the network call for ANY league identifier. -/
theorem allowList_enforced_only_at_route (id : String) (rest : List String)
    (f g : String → UpstreamHttp) (oracle : String → Nat → HttpResponse) :
    (id ≠ "" → ¬(id ∈ allowedLeagueIds) →
      routeGET ("league" :: id :: rest) f = .notAllowed
      ∧ routeGET ("league" :: id :: rest) f = routeGET ("league" :: id :: rest) g)
    ∧ (id ∈ allowedLeagueIds →
        routeGET ("league" :: id :: rest) f =
          (let res := f ("https://api.sleeper.app/v1" ++
              ("/" ++ String.intercalate "/" ("league" :: id :: rest)))
           if ¬(200 ≤ res.status ∧ res.status < 300) then .upstreamStatus res.status
           else .okBody res.text))
    ∧ (∀ d, (∀ n, oracle ("/league/" ++ id ++ "/users") n = ⟨200, .jsonData d⟩) →
        (getUsers id oracle).1 = .ok d) := by
  refine ⟨?_, ?_, ?_⟩
  · intro hne hnotmem
    constructor
    · unfold routeGET
      simp [pathHasLeaguePrefix, leagueMatchOf, hne, List.contains, hnotmem]
    · unfold routeGET
      simp [pathHasLeaguePrefix, leagueMatchOf, hne, List.contains, hnotmem]
  · intro hmem
    have hne : id ≠ "" := by
      intro h
      rw [h] at hmem
      revert hmem
      decide
    unfold routeGET
    simp [pathHasLeaguePrefix, leagueMatchOf, hne, List.contains, hmem]
  · intro d horacle
    unfold getUsers
    conv_lhs => rw [fetchSleeperAPI.eq_def]
    rw [horacle 0]
    simp [responseOk]

/-- C7 counterexample to the claim as stated: for the non-allow-listed league
id `"0"` the Upstream Client operation `getUsers` does NOT fail fast with a
not-allowed error — it consults the network and returns the fetched payload. -/
theorem upstreamClient_skips_allowList :
    ¬("0" ∈ allowedLeagueIds)
    ∧ (getUsers "0" (fun _ _ => ⟨200, .jsonData "users-payload"⟩)).1 = .ok "users-payload" := by
  constructor
  · decide
  · unfold getUsers
    conv_lhs => rw [fetchSleeperAPI.eq_def]
    simp [responseOk]

/-- C7 witness: the route rejects the non-allow-listed id `"0"` with 403, and
the client fetch for `"0"` still reaches the network and succeeds. -/
theorem allowList_enforced_only_at_route_witness :
    routeGET ["league", "0", "users"] demoUpstream = .notAllowed
    ∧ (getUsers "0" jsonOracle).1 = .ok "users-payload" := by
  constructor
  · exact ((allowList_enforced_only_at_route "0" ["users"] demoUpstream demoUpstream
      jsonOracle).1 (by decide) (by decide)).1
  · exact (allowList_enforced_only_at_route "0" ["users"] demoUpstream demoUpstream
      jsonOracle).2.2 "users-payload" (fun n => rfl)

/-! ### C9 — points reconstruction (corrected) -/

/-- C9 (amended): `getStandingsData` reconstructs points-for (and
points-against) as `integer + decimal/100` only when BOTH halves are non-null;
when EITHER half is missing the entire value is `0` — the present integer half
does NOT contribute on its own. -/
theorem pointsFor_reconstruction (users : List SleeperUser) (roster : SleeperRoster) :
    (∀ a b, roster.settings.fpts = some a → roster.settings.fpts_decimal = some b →
      (mkStandingsRow users roster).pointsFor = a + b / 100)
    ∧ ((roster.settings.fpts = none ∨ roster.settings.fpts_decimal = none) →
      (mkStandingsRow users roster).pointsFor = 0)
    ∧ (∀ a b, roster.settings.fpts_against = some a →
        roster.settings.fpts_against_decimal = some b →
      (mkStandingsRow users roster).pointsAgainst = a + b / 100)
    ∧ ((roster.settings.fpts_against = none ∨ roster.settings.fpts_against_decimal = none) →
      (mkStandingsRow users roster).pointsAgainst = 0) := by
  refine ⟨?_, ?_, ?_, ?_⟩
  · intro a b ha hb
    unfold mkStandingsRow
    simp [ha, hb]
  · rintro (h | h) <;>
      · unfold mkStandingsRow
        rcases hf : roster.settings.fpts with _ | a <;>
          rcases hd : roster.settings.fpts_decimal with _ | b <;>
          simp_all
  · intro a b ha hb
    unfold mkStandingsRow
    simp [ha, hb]
  · rintro (h | h) <;>
      · unfold mkStandingsRow
        rcases hf : roster.settings.fpts_against with _ | a <;>
          rcases hd : roster.settings.fpts_against_decimal with _ | b <;>
          simp_all

/-- C9 counterexample to the claim as stated: with `fpts = 123` present and
`fpts_decimal` missing, the roster's points-for is `0`, not the integer `123`
the claim's missing-half-as-zero-contribution reading requires. -/
theorem pointsFor_missing_half_zeroes_everything :
    halfRoster.settings.fpts = some 123
    ∧ halfRoster.settings.fpts_decimal = none
    ∧ (mkStandingsRow [] halfRoster).pointsFor = 0
    ∧ (mkStandingsRow [] halfRoster).pointsFor ≠ 123 := by
  refine ⟨rfl, rfl, ?_, ?_⟩ <;> decide

/-- C9 witness: with both halves present (`fpts = 100`, `fpts_decimal = 25`)
the reassembled points-for is `100.25`. -/
theorem pointsFor_reconstruction_witness :
    (mkStandingsRow [] tieRosterA).pointsFor = 100 + 25 / 100 :=
  (pointsFor_reconstruction [] tieRosterA).1 100 25 rfl rfl

/-- C1 witness: with week 3 the first week holding a positive point value and
week 4 also populated, the scan returns 3. -/
theorem getLatestWeekWithData_ascending_scan_witness :
    getLatestWeekWithData envScanDemo 5 = 3 := by
  apply (getLatestWeekWithData_ascending_scan envScanDemo 5).1 3
    (by decide) (by decide) (by decide)
  intro w hw1 hw2
  interval_cases w <;> decide
